import Mathlib

/-!
Verification of the Ultra-Tera-leech Telegram bot against its
natural-language specification.

The Python sources are shallowly embedded: strings are Lean `String`s
(operated on through their `List Char` data where Python slicing and
substring semantics matter), the in-memory active-download registry is an
association list from user ids to entries, and the local filesystem is the
list of paths that currently exist.  Each definition is translated from a
named function of the source tree; the doc comment of each definition names
the source location it embeds.
-/

namespace Py

/-- Python's `needle in haystack` substring test on strings
(`str.__contains__`). -/
def strContains (haystack needle : String) : Bool :=
  decide (needle.data <:+: haystack.data)

/-- Python's `str.lower()` restricted to the ASCII range, which is the only
range the embedded call sites exercise (their keys are ASCII words plus emoji
characters, and emoji are fixed points of `lower` in both languages). -/
def lower (s : String) : String :=
  ⟨s.data.map Char.toLower⟩

/-- Python's `l[:k]` for an `Int` bound `k`: a nonnegative bound takes a
prefix, a negative bound drops `|k|` elements from the end (empty when
`|k| ≥ len`). -/
def sliceTo (l : List Char) (k : Int) : List Char :=
  if 0 ≤ k then l.take k.toNat else l.take (l.length - (-k).toNat)

end Py

namespace BotHandlers

/-- Video extension table of `BotHandlers._detect_media_type`
(src/bot/handlers.py lines 426-430). -/
def video_exts : List String :=
  ["mp4", "avi", "mkv", "mov", "wmv", "flv", "3gp", "webm",
   "m4v", "mpg", "mpeg", "ogv", "ts", "vob", "asf", "rm", "rmvb",
   "divx", "xvid", "h264", "h265", "hevc"]

/-- Audio extension table of `BotHandlers._detect_media_type`
(src/bot/handlers.py lines 432-435). -/
def audio_exts : List String :=
  ["mp3", "wav", "flac", "aac", "ogg", "wma", "m4a", "opus",
   "aiff", "au", "ra", "amr", "3ga", "ac3", "dts", "ape", "alac"]

/-- Photo extension table of `BotHandlers._detect_media_type`
(src/bot/handlers.py lines 437-440). -/
def photo_exts : List String :=
  ["jpg", "jpeg", "png", "gif", "bmp", "webp", "tiff", "tif",
   "svg", "ico", "heic", "heif", "raw", "cr2", "nef", "arw"]

/-- Document extension table of `BotHandlers._detect_media_type`
(src/bot/handlers.py lines 442-445). -/
def document_exts : List String :=
  ["pdf", "doc", "docx", "xls", "xlsx", "ppt", "pptx", "txt",
   "rtf", "odt", "ods", "odp", "zip", "rar", "7z", "tar", "gz"]

/-- `BotHandlers._detect_media_type` (src/bot/handlers.py lines 421-456):
lowercases the extension, then tests the four tables in order after a
lowercase pass; any extension in none of the tables yields the fifth pair
`("File", "📄")`. -/
def detectMediaType (file_ext : String) : String × String :=
  let e := Py.lower file_ext
  if e ∈ video_exts then ("Video", "🎬")
  else if e ∈ audio_exts then ("Audio", "🎵")
  else if e ∈ photo_exts then ("Photo", "📸")
  else if e ∈ document_exts then ("Document", "📁")
  else ("File", "📄")

/-- Extension extraction of `BotHandlers._download_process`
(src/bot/handlers.py line 301):
`filename.lower().split('.')[-1] if '.' in filename else ''`. -/
def extOf (filename : String) : String :=
  if Py.strContains filename "." then
    ⟨(((Py.lower filename).data.reverse.takeWhile (fun c => c ≠ '.')).reverse)⟩
  else ""

end BotHandlers

/-- Parsed JSON values as the resolver client sees them after
`response.json()`. -/
inductive Json where
  | str : String → Json
  | arr : List Json → Json
  | obj : List (String × Json) → Json
  | num : Int → Json
  | nullv : Json

/-- Python `value == some_string` on a JSON value: only an equal JSON string
compares equal; every other shape compares unequal. -/
def Json.eqStr : Json → String → Bool
  | .str s, t => s = t
  | _, _ => false

/-- Python truthiness of a JSON value (`if value:`): empty strings, empty
lists, empty dicts, zero and null are falsy. -/
def Json.truthy : Json → Bool
  | .str s => s ≠ ""
  | .arr l => !l.isEmpty
  | .obj l => !l.isEmpty
  | .num n => n ≠ 0
  | .nullv => false

namespace TeraboxDownloaderBot

/-- Result dictionary shape of `TeraboxDownloader._try_api_request`
(src/bot/download.py lines 151-156 and 163). -/
structure ApiResult where
  success : Bool
  download_url : String
  filename : String
  size : String
deriving DecidableEq

/-- The `{'success': False, ...}` fall-through of `_try_api_request`
(src/bot/download.py line 163); the error string is not modelled. -/
def apiFail : ApiResult :=
  { success := false, download_url := "", filename := "", size := "" }

/-- Key scan of `_try_api_request` (src/bot/download.py lines 109-118): one
pass over `result.keys()`, remembering the last key whose lowercase form
contains `"status"` and the last whose lowercase form contains `"info"`. -/
def findStatusInfoFields (keys : List String) : Option String × Option String :=
  keys.foldl
    (fun acc key =>
      (if Py.strContains (Py.lower key) "status" then some key else acc.1,
       if Py.strContains (Py.lower key) "info" then some key else acc.2))
    (none, none)

/-- Field-extraction loop of `_try_api_request` (src/bot/download.py lines
130-148) over the first element of the extracted-info list: for each string
value, a key containing `"download"` with an `"http"`-containing value sets
the download URL, a key containing `"title"` or `"name"` sets the title
(initialised to `"download"`), and a key containing `"size"` sets the size
(initialised to `"Unknown"`).  Iterating the key/value pairs in order matches
the Python `for key in info.keys(): value = info.get(key)` loop because the
parsed dict has unique keys. -/
def extractInfoFields (info : List (String × Json)) :
    Option String × String × String :=
  info.foldl
    (fun acc kv =>
      match kv.2 with
      | Json.str value =>
        let kl := Py.lower kv.1
        (if Py.strContains kl "download" &&
            (Py.strContains value "http" || Py.strContains value "https")
         then some value else acc.1,
         if Py.strContains kl "title" || Py.strContains kl "name"
         then value else acc.2.1,
         if Py.strContains kl "size" then value else acc.2.2)
      | _ => acc)
    (none, "download", "Unknown")

/-- The file-info object that `_try_api_request` (src/bot/download.py lines
109-129) reaches before its extraction loop: the status field must hold
exactly `"Success"`, the info field must hold a truthy value that is a
non-empty list, and that list's first element must be an object (anything
else raises `AttributeError` at `info.keys()` and is caught, yielding the
failure result). -/
def infoObject (result : List (String × Json)) :
    Option (List (String × Json)) :=
  let fields := findStatusInfoFields (result.map Prod.fst)
  match fields.1 with
  | none => none
  | some sk =>
    if (result.lookup sk).elim false (fun v => v.eqStr "Success") then
      match fields.2 with
      | none => none
      | some ik =>
        match result.lookup ik with
        | some v =>
          if v.truthy then
            match v with
            | Json.arr (first :: _) =>
              match first with
              | Json.obj info => some info
              | _ => none
            | _ => none
          else none
        | none => none
    else none

/-- `TeraboxDownloader._try_api_request`, wdzone branch, applied to a parsed
HTTP-200 JSON body (src/bot/download.py lines 100-163): locate the status
and info fields, reach the file-info object, run the extraction loop, and
succeed only when a truthy download URL was found (`if download_url:`). -/
def tryApiRequest (result : List (String × Json)) : ApiResult :=
  match infoObject result with
  | none => apiFail
  | some info =>
    match extractInfoFields info with
    | (some u, title, size) =>
      if u ≠ "" then
        { success := true, download_url := u, filename := title,
          size := size }
      else apiFail
    | (none, _, _) => apiFail

end TeraboxDownloaderBot

namespace Filenames

/-- The character class of `re.sub(r'[<>:"/\\|?*]', '_', filename)` shared by
`TeraboxDownloader._sanitize_filename` (src/bot/download.py line 447) and
`normalize_filename` (src/terabox/utils.py line 31). -/
def badChar (c : Char) : Bool :=
  c = '<' || c = '>' || c = ':' || c = '"' || c = '/' || c = '\\' ||
  c = '|' || c = '?' || c = '*'

/-- One unsafe character replaced by `'_'`. -/
def replaceChar (c : Char) : Char :=
  if badChar c then '_' else c

/-- `re.sub(r'[<>:"/\\|?*]', '_', filename)`: the character-class
substitution maps each character independently. -/
def replaceBad (l : List Char) : List Char :=
  l.map replaceChar

/-- The part of `filename.rsplit('.', 1)` after the last dot (meaningful when
`'.' in filename`). -/
def extPart (l : List Char) : List Char :=
  (l.reverse.takeWhile (fun c => c ≠ '.')).reverse

/-- The part of `filename.rsplit('.', 1)` before the last dot (meaningful
when `'.' in filename`). -/
def namePart (l : List Char) : List Char :=
  ((l.reverse.dropWhile (fun c => c ≠ '.')).tail).reverse

/-- Core of `TeraboxDownloader._sanitize_filename` (src/bot/download.py
lines 444-451) and of the textually identical `normalize_filename`
(src/terabox/utils.py lines 28-37): replace unsafe characters by `'_'`;
if the result exceeds 200 characters, split at the last dot when one exists
(`name, ext = filename.rsplit('.', 1) if '.' in filename else (filename,
'')`) and rebuild as `name[:200-len(ext)-1] + '.' + ext` when the extension
is non-empty, else truncate the name part to 200 characters
(`name[:200]`). -/
def sanitizeCore (l : List Char) : List Char :=
  if 200 < (replaceBad l).length then
    if '.' ∈ replaceBad l then
      if (extPart (replaceBad l)).isEmpty then
        (namePart (replaceBad l)).take 200
      else
        Py.sliceTo (namePart (replaceBad l))
            ((200 : Int) - (extPart (replaceBad l)).length - 1) ++
          '.' :: extPart (replaceBad l)
    else (replaceBad l).take 200
  else replaceBad l

/-- `normalize_filename` (src/terabox/utils.py lines 28-37); also the body of
`TeraboxDownloader._sanitize_filename` (src/bot/download.py lines 444-451),
whose code is character-for-character the same. -/
def normalize_filename (s : String) : String :=
  ⟨sanitizeCore s.data⟩

end Filenames

/-- `config.DOWNLOAD_DIR` (src/config.py line 16). -/
def DOWNLOAD_DIR : String := "/usr/src/app/downloads/"

namespace DownloadCanceler

/-- One value of the module-level `download_canceler.active_downloads` dict
(src/bot/Cancel.py lines 13-20): the asyncio task handle is abstracted to
whether `task.done()` would be true, alongside the `cancelled` flag and the
`file_path` slot (the status-message handle carries no modelled state). -/
structure Entry where
  taskDone : Bool
  cancelled : Bool
  file_path : Option String
deriving DecidableEq

/-- The registry as the Python dict `active_downloads`: a map from user id to
entry. -/
def Registry : Type := Nat → Option Entry

/-- Dict assignment `self.active_downloads[user_id] = ...`. -/
def Registry.insert (reg : Registry) (user : Nat) (e : Entry) : Registry :=
  fun v => if v = user then some e else reg v

/-- Dict deletion `del self.active_downloads[user_id]` (guarded by the
membership test of `remove_download`, src/bot/Cancel.py lines 23-27). -/
def Registry.remove (reg : Registry) (user : Nat) : Registry :=
  fun v => if v = user then none else reg v

/-- The combined mutable state the cancel path touches: the registry and the
set of paths existing on the local filesystem. -/
structure SysState where
  reg : Registry
  fs : List String

/-- `DownloadCanceler.has_active_download` (src/bot/Cancel.py lines 69-71):
`user_id in self.active_downloads`. -/
def has_active_download (reg : Registry) (user : Nat) : Bool :=
  (reg user).isSome

/-- `DownloadCanceler.is_cancelled` (src/bot/Cancel.py lines 73-77): false
for absent users, else the entry's `cancelled` flag (always present since
`add_download` stores it). -/
def is_cancelled (reg : Registry) (user : Nat) : Bool :=
  match reg user with
  | none => false
  | some e => e.cancelled

/-- `DownloadCanceler.add_download` (src/bot/Cancel.py lines 13-21): stores a
fresh entry with `cancelled = False` and the given `file_path` (the call site
src/bot/handlers.py line 259 passes no `file_path`, leaving it `None`). -/
def add_download (reg : Registry) (user : Nat) (file_path : Option String) :
    Registry :=
  reg.insert user { taskDone := false, cancelled := false,
                    file_path := file_path }

/-- `DownloadCanceler.remove_download` (src/bot/Cancel.py lines 23-27). -/
def remove_download (reg : Registry) (user : Nat) : Registry :=
  match reg user with
  | none => reg
  | some _ => reg.remove user

/-- Outcome of `cancel_download`: the returned boolean, whether
`task.cancel()` was invoked (`if download_info['task'] and not
download_info['task'].done()`), and the state afterwards. -/
structure CancelOutcome where
  returned : Bool
  taskCancelSignalled : Bool
  st : SysState

/-- `DownloadCanceler.cancel_download` (src/bot/Cancel.py lines 29-67): if
the user has no entry, return `False`; otherwise set the entry's `cancelled`
flag, cancel the asyncio task when it is not done, delete the file at the
entry's `file_path` when that slot is set and the file exists
(`os.path.exists` / `os.remove`), edit the status message (stateless here),
remove the entry and return `True`. -/
def cancel_download (user : Nat) (st : SysState) : CancelOutcome :=
  match st.reg user with
  | none => { returned := false, taskCancelSignalled := false, st := st }
  | some e =>
    let e1 : Entry := { e with cancelled := true }
    let reg1 := st.reg.insert user e1
    let fs1 :=
      match e1.file_path with
      | some p => if p ∈ st.fs then st.fs.erase p else st.fs
      | none => st.fs
    { returned := true, taskCancelSignalled := !e.taskDone,
      st := { reg := remove_download reg1 user, fs := fs1 } }

end DownloadCanceler

namespace BotHandlers

open DownloadCanceler

/-- Domain allow-list of `BotHandlers.handle_terabox_link`
(src/bot/handlers.py lines 224-227). -/
def supported_domains : List String :=
  ["terabox.com", "1024terabox.com", "teraboxurl.com",
   "4funbox.com", "mirrobox.com", "nephobox.com"]

/-- Link validation of `handle_terabox_link` (src/bot/handlers.py line 229):
`any(domain in text_lower for domain in supported_domains)`. -/
def isValidLink (text : String) : Bool :=
  supported_domains.any (fun d => Py.strContains (Py.lower text) d)

/-- The visible outcome of the synchronous prefix of
`handle_terabox_link`. -/
inductive LinkReply where
  | noReply
  | busyMessage
  | invalidLink
  | statusCreated
deriving DecidableEq

/-- `BotHandlers.handle_terabox_link` (src/bot/handlers.py lines 197-270) up
to and including task registration: after the force-subscription gate, a
user with an active download gets the busy message and nothing else changes;
an invalid link gets the invalid-link message; otherwise the status message
is sent, the download task is created and `add_download` registers it with
`file_path = None`.  The returned boolean records whether a download task
was created. -/
def handle_terabox_link (forceSubOk : Bool) (user : Nat) (text : String)
    (st : SysState) : LinkReply × SysState × Bool :=
  if !forceSubOk then (LinkReply.noReply, st, false)
  else if has_active_download st.reg user then (LinkReply.busyMessage, st, false)
  else if !isValidLink text then (LinkReply.invalidLink, st, false)
  else (LinkReply.statusCreated,
        { st with reg := add_download st.reg user none }, true)

end BotHandlers

/-- Insertion of a path into the modelled filesystem: opening a file for
writing creates it (once). -/
def insertFile (p : String) (fs : List String) : List String :=
  if p ∈ fs then fs else p :: fs

namespace OptimizedEngine

/-- The outcome of one `session.get(download_url)` in
`TeraboxDownloader._optimized_download` (src/bot/download.py lines 389-400):
HTTP status, the declared `content-length`, the chunk sizes the body
iterator actually yields, and whether the iterator (or a chunk write) raises
after yielding them. -/
structure HttpStream where
  status : Nat
  contentLength : Nat
  delivered : List Nat
  errored : Bool
deriving DecidableEq

/-- The observable result of `_optimized_download`: the returned value
(`file_path` on completion, `None` on HTTP error or exception), the
filesystem afterwards, and how many body bytes were written to the file. -/
structure EngineOutcome where
  result : Option String
  fs : List String
  bytesWritten : Nat
deriving DecidableEq

/-- The filesystem the moment `aiofiles.open(file_path, 'wb')` has created
the destination file inside `_optimized_download` (src/bot/download.py line
399), before or during the chunk loop. -/
def openFs (file_path : String) (fs : List String) : List String :=
  insertFile file_path fs

/-- `TeraboxDownloader._optimized_download` (src/bot/download.py lines
384-442), embedded over an `HttpStream` and the canceler registry that is
importable module state: on HTTP 200 the file is created and every delivered
chunk is written by the `async for chunk in response.content.iter_chunked`
loop — the loop body (lines 400-429) reads no cancellation state, so the
registry argument is never consulted; a non-200 status returns `None`
without creating the file; an exception after the delivered chunks is caught
by the `except Exception` clause, which returns `None` and removes
nothing. -/
def optimizedDownload (canceler : DownloadCanceler.Registry)
    (resp : HttpStream) (file_path : String) (fs : List String) :
    EngineOutcome :=
  if resp.status = 200 then
    if resp.errored then
      { result := none, fs := openFs file_path fs,
        bytesWritten := resp.delivered.sum }
    else
      { result := some file_path, fs := openFs file_path fs,
        bytesWritten := resp.delivered.sum }
  else
    { result := none, fs := fs, bytesWritten := 0 }

end OptimizedEngine

namespace TeraboxPkgDownloader

/-- CPython `os.path.splitext` on a bare filename (no separators): split at
the last dot provided some earlier character of the name is not a dot; the
extension keeps its leading dot. -/
def splitext (s : List Char) : List Char × List Char :=
  if '.' ∈ s then
    let name := Filenames.namePart s
    let ext := Filenames.extPart s
    if name.any (fun c => c ≠ '.') then (name, '.' :: ext) else (s, [])
  else (s, [])

/-- The unique-filename loop of `TeraboxDownloader._download_with_progress`
(src/terabox/downloader.py lines 80-86): starting from `counter = 1`, probe
`f"{base_name}_{counter}{ext}"` until the joined path does not exist.  The
fuel argument bounds how many probes the model performs; the Python loop has
no such bound. -/
def uniquePathAux (fs : List String) (base ext : String) :
    Nat → Nat → Option (String × String)
  | 0, _ => none
  | fuel + 1, counter =>
    let fn := base ++ "_" ++ toString counter ++ ext
    let p := DOWNLOAD_DIR ++ fn
    if p ∈ fs then uniquePathAux fs base ext fuel (counter + 1)
    else some (fn, p)

/-- Filename/path selection of `_download_with_progress`
(src/terabox/downloader.py lines 77-86): `os.path.join(config.DOWNLOAD_DIR,
filename)` (the configured directory ends in a separator), then the
unique-filename loop when that path already exists. -/
def uniquePath (fs : List String) (filename : String) (fuel : Nat) :
    Option (String × String) :=
  let p := DOWNLOAD_DIR ++ filename
  if p ∈ fs then
    let se := splitext filename.data
    uniquePathAux fs ⟨se.1⟩ ⟨se.2⟩ fuel 1
  else some (filename, p)

/-- The outcome of the single `session.get` of `_download_with_progress`
(src/terabox/downloader.py lines 88-114): `connectError` models an exception
before any response (session creation or the GET itself); otherwise the
status, declared `content-length`, delivered chunk sizes, and whether the
stream (or the progress callback) raises after delivering them. -/
structure HttpAttempt where
  connectError : Bool
  status : Nat
  contentLength : Nat
  delivered : List Nat
  errored : Bool
deriving DecidableEq

/-- The result dict of `_download_with_progress` plus the filesystem
afterwards.  `sizeBytes` is the byte count `downloaded`; the source reports
it through the human-readable `format_bytes` wrapper, which is display-only
and not modelled. -/
structure DwpOutcome where
  success : Bool
  path : String
  filename : String
  sizeBytes : Nat
  fs : List String
deriving DecidableEq

/-- `TeraboxDownloader._download_with_progress` (src/terabox/downloader.py
lines 74-126): choose a fresh path; on an exception before the response the
`except` clause removes the file if it exists (it does not) and reports
failure; a non-200 status returns failure from inside the `try` with no file
created; an exception after `delivered` chunks reaches the `except` clause,
which removes the partially written file and reports failure; a completed
stream returns success with the downloaded byte count — the declared
`content-length` is never compared against it.  `none` only when the model's
path-probing fuel runs out. -/
def downloadWithProgress (fs : List String) (fuel : Nat) (filename : String)
    (resp : HttpAttempt) : Option DwpOutcome :=
  match uniquePath fs filename fuel with
  | none => none
  | some (fn, p) =>
    if resp.connectError then
      some { success := false, path := p, filename := fn, sizeBytes := 0,
             fs := if p ∈ fs then fs.erase p else fs }
    else if resp.status ≠ 200 then
      some { success := false, path := p, filename := fn, sizeBytes := 0,
             fs := fs }
    else if resp.errored then
      let fsOpen := insertFile p fs
      some { success := false, path := p, filename := fn,
             sizeBytes := resp.delivered.sum,
             fs := if p ∈ fsOpen then fsOpen.erase p else fsOpen }
    else
      some { success := true, path := p, filename := fn,
             sizeBytes := resp.delivered.sum, fs := insertFile p fs }

end TeraboxPkgDownloader

namespace TelegramUploader

/-- `TelegramUploader._get_video_extensions` (src/bot/upload.py lines
145-150). -/
def video_extensions : List String :=
  ["mp4", "avi", "mkv", "mov", "wmv", "flv", "3gp", "webm",
   "m4v", "mpg", "mpeg", "ogv", "ts", "vob", "asf", "rm", "rmvb"]

/-- `TelegramUploader._get_audio_extensions` (src/bot/upload.py lines
152-157). -/
def audio_extensions : List String :=
  ["mp3", "wav", "flac", "aac", "ogg", "wma", "m4a", "opus",
   "aiff", "au", "ra", "amr", "3ga", "ac3", "dts"]

/-- `TelegramUploader._get_photo_extensions` (src/bot/upload.py lines
159-164). -/
def photo_extensions : List String :=
  ["jpg", "jpeg", "png", "gif", "bmp", "webp", "tiff", "tif",
   "svg", "ico", "heic", "heif"]

/-- The chat-SDK environment one upload runs against: the size
`os.path.getsize` reports and whether each `reply_*` SDK call, were it
attempted, would succeed (a `False` models the SDK raising: oversize,
unsupported format, API error). -/
structure SdkEnv where
  fileSize : Nat
  videoSendOk : Bool
  audioSendOk : Bool
  photoSendOk : Bool
  documentSendOk : Bool
deriving DecidableEq

/-- One SDK media send actually attempted. -/
inductive MediaAttempt where
  | video
  | audio
  | photo
  | document
deriving DecidableEq

/-- `TelegramUploader.upload_as_video` (src/bot/upload.py lines 45-69): files
over 50 MB are refused before any SDK media call; otherwise one
`reply_video` call whose failure is caught and reported as `False`.  The
result pairs the returned boolean with the SDK media sends attempted. -/
def upload_as_video (env : SdkEnv) : Bool × List MediaAttempt :=
  if 50 * 1024 * 1024 < env.fileSize then (false, [])
  else (env.videoSendOk, [MediaAttempt.video])

/-- `TelegramUploader.upload_as_audio` (src/bot/upload.py lines 71-95). -/
def upload_as_audio (env : SdkEnv) : Bool × List MediaAttempt :=
  if 50 * 1024 * 1024 < env.fileSize then (false, [])
  else (env.audioSendOk, [MediaAttempt.audio])

/-- `TelegramUploader.upload_as_document` (src/bot/upload.py lines
119-143). -/
def upload_as_document (env : SdkEnv) : Bool × List MediaAttempt :=
  if 50 * 1024 * 1024 < env.fileSize then (false, [])
  else (env.documentSendOk, [MediaAttempt.document])

/-- `TelegramUploader.upload_as_photo` (src/bot/upload.py lines 97-117):
photos over 10 MB are diverted to `upload_as_document`; otherwise one
`reply_photo` call. -/
def upload_as_photo (env : SdkEnv) : Bool × List MediaAttempt :=
  if 10 * 1024 * 1024 < env.fileSize then upload_as_document env
  else (env.photoSendOk, [MediaAttempt.photo])

/-- `TelegramUploader.upload_with_progress` (src/bot/upload.py lines 13-43):
the extension (computed exactly as in src/bot/handlers.py line 301) picks the
branch; recognised video, audio and photo extensions call only their own
upload method; every other extension tries video first and falls back to
document when that fails. -/
def upload_with_progress (env : SdkEnv) (filename : String) :
    Bool × List MediaAttempt :=
  let ext := BotHandlers.extOf filename
  if ext ∈ video_extensions then upload_as_video env
  else if ext ∈ audio_extensions then upload_as_audio env
  else if ext ∈ photo_extensions then upload_as_photo env
  else
    let v := upload_as_video env
    if v.1 then v
    else
      let d := upload_as_document env
      (d.1, v.2 ++ d.2)

end TelegramUploader

/-!
Theorems settling the claims.
-/

section Claims

open DownloadCanceler BotHandlers

/-- C6: the resolver JSON response with emoji-prefixed keys
`✅ Status` / `📜 Extracted Info` / `📂 Title` / `📏 Size` /
`🔽 Direct Download Link` is parsed by the substring-matching field
discovery of `_try_api_request` into a success with filename
`movie.mp4`, size `30.56 MB` and download URL `https://x/y.mp4`. -/
theorem resolver_emoji_scenario_parses :
    TeraboxDownloaderBot.tryApiRequest
      [("✅ Status", Json.str "Success"),
       ("📜 Extracted Info", Json.arr [Json.obj
         [("📂 Title", Json.str "movie.mp4"),
          ("📏 Size", Json.str "30.56 MB"),
          ("🔽 Direct Download Link", Json.str "https://x/y.mp4")]])] =
      { success := true, download_url := "https://x/y.mp4",
        filename := "movie.mp4", size := "30.56 MB" } := by
  decide

/-- C2: a link submission from a user who already has an entry in the
active-downloads registry is answered with the busy message and changes
nothing: the registry (in which each user id keys at most one entry by
construction) and filesystem are untouched and no download task is
created. -/
theorem busy_user_link_rejected (st : SysState) (user : Nat) (text : String)
    (h : has_active_download st.reg user = true) :
    handle_terabox_link true user text st = (LinkReply.busyMessage, st, false) := by
  unfold handle_terabox_link
  simp [h]

/-- Witness for `busy_user_link_rejected` at a concrete busy state. -/
theorem busy_user_link_rejected_witness :
    handle_terabox_link true 7 "https://terabox.com/s/abcd1234"
      { reg := fun v => if v = 7 then
          some { taskDone := false, cancelled := false, file_path := none }
        else none,
        fs := [] } =
      (LinkReply.busyMessage,
       { reg := fun v => if v = 7 then
           some { taskDone := false, cancelled := false, file_path := none }
         else none,
         fs := [] }, false) :=
  busy_user_link_rejected _ 7 "https://terabox.com/s/abcd1234" (by decide)

/-- C1: the failing scenario.  User 42 submits a valid link;
`handle_terabox_link` registers the task with `file_path = None`
(src/bot/handlers.py line 259 passes no path); `_optimized_download` has
created the destination file and is mid-loop; the user cancels.
`cancel_download` returns `True` and removes the registry entry, but deletes
nothing because the entry's `file_path` slot is still `None` — the slot is
filled only after `download_file` returns (src/bot/handlers.py lines
360-361).  The partial file is still on disk after the user's entry is gone,
contradicting the cleanup guarantee (and the handler's own "files cleaned
up" message). -/
theorem cancel_mid_download_leaves_partial_file :
    (handle_terabox_link true 42 "https://terabox.com/s/abcd1234"
        { reg := fun _ => none, fs := [] }).1 = LinkReply.statusCreated ∧
    (handle_terabox_link true 42 "https://terabox.com/s/abcd1234"
        { reg := fun _ => none, fs := [] }).2.2 = true ∧
    (cancel_download 42
        { reg := (handle_terabox_link true 42 "https://terabox.com/s/abcd1234"
            { reg := fun _ => none, fs := [] }).2.1.reg,
          fs := OptimizedEngine.openFs (DOWNLOAD_DIR ++ "movie.mp4")
            (handle_terabox_link true 42 "https://terabox.com/s/abcd1234"
              { reg := fun _ => none, fs := [] }).2.1.fs }).returned = true ∧
    (cancel_download 42
        { reg := (handle_terabox_link true 42 "https://terabox.com/s/abcd1234"
            { reg := fun _ => none, fs := [] }).2.1.reg,
          fs := OptimizedEngine.openFs (DOWNLOAD_DIR ++ "movie.mp4")
            (handle_terabox_link true 42 "https://terabox.com/s/abcd1234"
              { reg := fun _ => none, fs := [] }).2.1.fs }).st.reg 42 = none ∧
    (DOWNLOAD_DIR ++ "movie.mp4") ∈
      (cancel_download 42
        { reg := (handle_terabox_link true 42 "https://terabox.com/s/abcd1234"
            { reg := fun _ => none, fs := [] }).2.1.reg,
          fs := OptimizedEngine.openFs (DOWNLOAD_DIR ++ "movie.mp4")
            (handle_terabox_link true 42 "https://terabox.com/s/abcd1234"
              { reg := fun _ => none, fs := [] }).2.1.fs }).st.fs := by
  refine ⟨by decide, by decide, ?_, ?_, ?_⟩ <;> decide

end Claims

section Claims2

open DownloadCanceler BotHandlers OptimizedEngine TeraboxPkgDownloader

/-- C7 counterexample: the extension `xyz` appears in none of the fixed
extension tables, yet the classifier yields the fifth category
`("File", "📄")`, not `document` — so the classifier's codomain is not
`{video, audio, photo, document}` and the unrecognized-extension default is
not `document`. -/
theorem unknown_extension_not_document_cex :
    detectMediaType (extOf "data.xyz") = ("File", "📄") ∧
    ("File" : String) ∉ ["Video", "Audio", "Photo", "Document"] := by
  decide

/-- C7 amended: the classifier is a pure function into the five categories
`Video`, `Audio`, `Photo`, `Document`, `File`; `movie.mp4` classifies as
video and `archive.zip` as document, and every extension appearing in none
of the four tables yields the default `("File", "📄")`. -/
theorem classifier_five_categories (ext : String) :
    (detectMediaType ext).1 ∈ ["Video", "Audio", "Photo", "Document", "File"] ∧
    detectMediaType (extOf "movie.mp4") = ("Video", "🎬") ∧
    detectMediaType (extOf "archive.zip") = ("Document", "📁") ∧
    (Py.lower ext ∉ video_exts → Py.lower ext ∉ audio_exts →
     Py.lower ext ∉ photo_exts → Py.lower ext ∉ document_exts →
     detectMediaType ext = ("File", "📄")) := by
  refine ⟨?_, by decide, by decide, ?_⟩
  · unfold detectMediaType
    dsimp only
    split_ifs <;> simp
  · intro h1 h2 h3 h4
    unfold detectMediaType
    simp [h1, h2, h3, h4]

/-- Witness for `classifier_five_categories` at the concrete extension
`xyz`, discharging the four non-membership hypotheses. -/
theorem classifier_five_categories_witness :
    detectMediaType "xyz" = ("File", "📄") :=
  (classifier_five_categories "xyz").2.2.2 (by decide) (by decide)
    (by decide) (by decide)

/-- C3 counterexample: with user 42's transfer marked cancelled before the
download even starts, `_optimized_download` still writes all 300 bytes of
the three delivered chunks and completes — its outcome is identical to the
run with an empty canceler registry, because the chunk-read loop never
consults the cancellation state. -/
theorem chunk_loop_ignores_cancel_flag_cex :
    optimizedDownload
        (fun v => if v = 42 then
          some { taskDone := false, cancelled := true, file_path := none }
        else none)
        { status := 200, contentLength := 300, delivered := [100, 100, 100],
          errored := false }
        (DOWNLOAD_DIR ++ "movie.mp4") [] =
      optimizedDownload (fun _ => none)
        { status := 200, contentLength := 300, delivered := [100, 100, 100],
          errored := false }
        (DOWNLOAD_DIR ++ "movie.mp4") [] ∧
    (optimizedDownload
        (fun v => if v = 42 then
          some { taskDone := false, cancelled := true, file_path := none }
        else none)
        { status := 200, contentLength := 300, delivered := [100, 100, 100],
          errored := false }
        (DOWNLOAD_DIR ++ "movie.mp4") []).bytesWritten = 300 ∧
    (optimizedDownload
        (fun v => if v = 42 then
          some { taskDone := false, cancelled := true, file_path := none }
        else none)
        { status := 200, contentLength := 300, delivered := [100, 100, 100],
          errored := false }
        (DOWNLOAD_DIR ++ "movie.mp4") []).result =
      some (DOWNLOAD_DIR ++ "movie.mp4") := by
  refine ⟨rfl, by decide, by decide⟩

/-- C3 amended: the chunk-read loop of `_optimized_download` does not poll
the cancellation state — its entire outcome is independent of the canceler
registry — and cancellation is instead effected by `cancel_download`
signalling `task.cancel()` on the transfer's asyncio task whenever the
registered task is not yet done (the flag itself is only read by
`_download_process` after the resolver call and after the download call
return). -/
theorem cancellation_by_task_cancel_not_polling :
    (∀ (c₁ c₂ : Registry) (resp : HttpStream) (p : String) (fs : List String),
      optimizedDownload c₁ resp p fs = optimizedDownload c₂ resp p fs) ∧
    (∀ (user : Nat) (st : SysState) (e : Entry),
      st.reg user = some e → e.taskDone = false →
      (cancel_download user st).taskCancelSignalled = true) := by
  constructor
  · intro c₁ c₂ resp p fs
    rfl
  · intro user st e h hdone
    unfold cancel_download
    rw [h]
    simp [hdone]

/-- Witness for `cancellation_by_task_cancel_not_polling`: concrete
instantiations of both parts, with the hypotheses discharged at a state
holding a not-yet-done task for user 42. -/
theorem cancellation_by_task_cancel_not_polling_witness :
    optimizedDownload
        (fun v => if v = 42 then
          some { taskDone := false, cancelled := true, file_path := none }
        else none)
        { status := 200, contentLength := 300, delivered := [100],
          errored := false } (DOWNLOAD_DIR ++ "a.bin") [] =
      optimizedDownload (fun _ => none)
        { status := 200, contentLength := 300, delivered := [100],
          errored := false } (DOWNLOAD_DIR ++ "a.bin") [] ∧
    (cancel_download 42
        { reg := fun v => if v = 42 then
            some { taskDone := false, cancelled := false, file_path := none }
          else none,
          fs := [] }).taskCancelSignalled = true :=
  ⟨cancellation_by_task_cancel_not_polling.1 _ _ _ _ _,
   cancellation_by_task_cancel_not_polling.2 42 _
     { taskDone := false, cancelled := false, file_path := none }
     (by decide) rfl⟩

/-- C4 counterexample: a download that delivers 80 bytes of a declared
100-byte Content-Length (80 percent) is returned by
`_download_with_progress` as a successful result — it is not rejected and
triggers no retry or failure. -/
theorem short_download_accepted_cex :
    downloadWithProgress [] 1 "movie.mp4"
      { connectError := false, status := 200, contentLength := 100,
        delivered := [80], errored := false } =
    some { success := true, path := DOWNLOAD_DIR ++ "movie.mp4",
           filename := "movie.mp4", sizeBytes := 80,
           fs := [DOWNLOAD_DIR ++ "movie.mp4"] } := by
  decide

/-- C4 amended: neither download engine compares the on-disk size with the
declared Content-Length.  Every stream that completes is accepted as a
success whatever the declared size — so downloads at 95 percent and at 80
percent of the declared size are both accepted, and no size mismatch ever
triggers retry or failure. -/
theorem no_size_verification :
    (∀ (fs : List String) (fuel : Nat) (filename : String)
        (resp : HttpAttempt) (out : DwpOutcome),
      resp.connectError = false → resp.status = 200 → resp.errored = false →
      downloadWithProgress fs fuel filename resp = some out →
      out.success = true ∧ out.sizeBytes = resp.delivered.sum) ∧
    (∀ (c : Registry) (resp : HttpStream) (p : String) (fs : List String),
      resp.status = 200 → resp.errored = false →
      (optimizedDownload c resp p fs).result = some p ∧
      (optimizedDownload c resp p fs).bytesWritten = resp.delivered.sum) := by
  constructor
  · intro fs fuel filename resp out hc hs he hdl
    unfold downloadWithProgress at hdl
    cases hu : uniquePath fs filename fuel with
    | none => rw [hu] at hdl; exact absurd hdl (by simp)
    | some pr =>
      rw [hu] at hdl
      simp [hc, hs, he] at hdl
      cases hdl
      simp
  · intro c resp p fs hs he
    unfold optimizedDownload
    simp [hs, he]

/-- Witness for `no_size_verification`: the 80-percent download of the
counterexample input is accepted, and the single-stream engine accepts a
50-of-declared-100 byte stream. -/
theorem no_size_verification_witness :
    ((downloadWithProgress [] 1 "movie.mp4"
        { connectError := false, status := 200, contentLength := 100,
          delivered := [80], errored := false }).elim False
      (fun out => out.success = true ∧ out.sizeBytes = 80)) ∧
    (optimizedDownload (fun _ => none)
        { status := 200, contentLength := 100, delivered := [50],
          errored := false } (DOWNLOAD_DIR ++ "a.bin") []).result =
      some (DOWNLOAD_DIR ++ "a.bin") := by
  constructor
  · have h := no_size_verification.1 [] 1 "movie.mp4"
      { connectError := false, status := 200, contentLength := 100,
        delivered := [80], errored := false }
      { success := true, path := DOWNLOAD_DIR ++ "movie.mp4",
        filename := "movie.mp4", sizeBytes := 80,
        fs := [DOWNLOAD_DIR ++ "movie.mp4"] }
      rfl rfl rfl (by decide)
    rw [show downloadWithProgress [] 1 "movie.mp4"
      { connectError := false, status := 200, contentLength := 100,
        delivered := [80], errored := false } =
      some { success := true, path := DOWNLOAD_DIR ++ "movie.mp4",
             filename := "movie.mp4", sizeBytes := 80,
             fs := [DOWNLOAD_DIR ++ "movie.mp4"] } from by decide]
    exact h
  · exact (no_size_verification.2 (fun _ => none)
      { status := 200, contentLength := 100, delivered := [50],
        errored := false } (DOWNLOAD_DIR ++ "a.bin") [] rfl rfl).1

end Claims2

section Claims3

open TeraboxPkgDownloader TelegramUploader BotHandlers

/-- Helper: a path produced by the unique-filename probe loop does not exist
in the filesystem it probed. -/
theorem uniquePathAux_fresh (fs : List String) (base ext : String) :
    ∀ (fuel counter : Nat) (fn p : String),
      uniquePathAux fs base ext fuel counter = some (fn, p) → p ∉ fs := by
  intro fuel
  induction fuel with
  | zero => intro counter fn p h; simp [uniquePathAux] at h
  | succ n ih =>
    intro counter fn p h
    unfold uniquePathAux at h
    by_cases hm : (DOWNLOAD_DIR ++ (base ++ "_" ++ toString counter ++ ext)) ∈ fs
    · simp only [hm, if_true] at h
      exact ih (counter + 1) fn p h
    · simp only [hm, if_false] at h
      cases h
      exact hm

/-- Helper: the path `_download_with_progress` settles on is fresh. -/
theorem uniquePath_fresh (fs : List String) (filename : String) (fuel : Nat)
    (fn p : String) (h : uniquePath fs filename fuel = some (fn, p)) :
    p ∉ fs := by
  unfold uniquePath at h
  by_cases hm : (DOWNLOAD_DIR ++ filename) ∈ fs
  · simp only [hm, if_true] at h
    exact uniquePathAux_fresh fs _ _ fuel 1 fn p h
  · simp only [hm, if_false] at h
    cases h
    exact hm

/-- C10: failure atomicity of `_download_with_progress`.  Whenever an
exception interrupts the stream after the destination file was opened, the
result reports `success = false`; and whenever the function reports failure
— early exception, non-200 status, or mid-stream exception — no file remains
at the path it chose (its `except` clause removes the partially written
file, and in the other failure branches the file was never created). -/
theorem download_failure_removes_partial_file (fs : List String) (fuel : Nat)
    (filename : String) (resp : HttpAttempt) (out : DwpOutcome)
    (h : downloadWithProgress fs fuel filename resp = some out) :
    (resp.connectError = false → resp.status = 200 → resp.errored = true →
      out.success = false) ∧
    (out.success = false → out.path ∉ out.fs) := by
  unfold downloadWithProgress at h
  cases hu : uniquePath fs filename fuel with
  | none => rw [hu] at h; exact absurd h (by simp)
  | some pr =>
    obtain ⟨fn, p⟩ := pr
    have hp : p ∉ fs := uniquePath_fresh fs filename fuel fn p hu
    rw [hu] at h
    cases hc : resp.connectError with
    | true =>
      rw [hc] at h
      simp only [if_true] at h
      cases h
      refine ⟨fun hff _ _ => absurd hff (by simp), fun _ => ?_⟩
      show p ∉ (if p ∈ fs then fs.erase p else fs)
      rw [if_neg hp]
      exact hp
    | false =>
      rw [hc] at h
      simp only [Bool.false_eq_true, if_false] at h
      by_cases hs : resp.status = 200
      · simp only [hs, ne_eq, not_true_eq_false, if_false] at h
        cases he : resp.errored with
        | true =>
          rw [he] at h
          simp only [if_true] at h
          cases h
          refine ⟨fun _ _ _ => rfl, fun _ => ?_⟩
          show p ∉ (if p ∈ insertFile p fs then (insertFile p fs).erase p
                    else insertFile p fs)
          rw [show insertFile p fs = p :: fs from by
            unfold insertFile; rw [if_neg hp]]
          rw [if_pos (List.mem_cons_self p fs), List.erase_cons_head]
          exact hp
        | false =>
          rw [he] at h
          simp only [Bool.false_eq_true, if_false] at h
          cases h
          exact ⟨fun _ _ hff => absurd hff (by simp),
                 fun hff => absurd hff (by simp)⟩
      · rw [if_pos (by simpa using hs)] at h
        cases h
        exact ⟨fun _ h200 _ => absurd h200 hs, fun _ => hp⟩

/-- Witness for `download_failure_removes_partial_file`: a stream that dies
after 50 of 100 declared bytes yields a failure whose chosen path is absent
from the final filesystem. -/
theorem download_failure_removes_partial_file_witness :
    ({ success := false, path := DOWNLOAD_DIR ++ "movie.mp4",
       filename := "movie.mp4", sizeBytes := 50,
       fs := [] } : DwpOutcome).success = false ∧
    ({ success := false, path := DOWNLOAD_DIR ++ "movie.mp4",
       filename := "movie.mp4", sizeBytes := 50,
       fs := [] } : DwpOutcome).path ∉
      ({ success := false, path := DOWNLOAD_DIR ++ "movie.mp4",
         filename := "movie.mp4", sizeBytes := 50,
         fs := [] } : DwpOutcome).fs :=
  have h := download_failure_removes_partial_file [] 1 "movie.mp4"
    { connectError := false, status := 200, contentLength := 100,
      delivered := [50], errored := true }
    { success := false, path := DOWNLOAD_DIR ++ "movie.mp4",
      filename := "movie.mp4", sizeBytes := 50, fs := [] }
    (by decide)
  ⟨h.1 rfl rfl rfl, h.2 (h.1 rfl rfl rfl)⟩

end Claims3

section Claims4

open TelegramUploader BotHandlers

/-- C8 counterexample: `movie.mp4` is classified video, and when the SDK
rejects the video send (`reply_video` raises), `upload_with_progress`
reports failure after the single video attempt — no fallback attempt to
send the file as a generic document is made. -/
theorem video_reject_no_document_fallback_cex :
    upload_with_progress
        { fileSize := 1000000, videoSendOk := false, audioSendOk := true,
          photoSendOk := true, documentSendOk := true } "movie.mp4" =
      (false, [MediaAttempt.video]) ∧
    MediaAttempt.document ∉
      (upload_with_progress
        { fileSize := 1000000, videoSendOk := false, audioSendOk := true,
          photoSendOk := true, documentSendOk := true } "movie.mp4").2 := by
  decide

/-- C8 amended: files with recognised video or audio extensions are sent
only as their classified type and never fall back to a document upload on
SDK rejection; a recognised photo extension produces a document send only
through the over-10-MB diversion (and only under the 50 MB ceiling); the
video-then-document fallback exists solely for extensions outside all three
tables, where a failed video attempt within the 50 MB ceiling is followed by
one document attempt. -/
theorem fallback_only_for_unknown_and_big_photos (env : SdkEnv)
    (filename : String) :
    (extOf filename ∈ video_extensions →
      upload_with_progress env filename = upload_as_video env ∧
      MediaAttempt.document ∉ (upload_as_video env).2) ∧
    (extOf filename ∉ video_extensions → extOf filename ∈ audio_extensions →
      upload_with_progress env filename = upload_as_audio env ∧
      MediaAttempt.document ∉ (upload_as_audio env).2) ∧
    (extOf filename ∉ video_extensions → extOf filename ∉ audio_extensions →
      extOf filename ∈ photo_extensions →
      upload_with_progress env filename = upload_as_photo env ∧
      (MediaAttempt.document ∈ (upload_as_photo env).2 ↔
        10 * 1024 * 1024 < env.fileSize ∧
        ¬ 50 * 1024 * 1024 < env.fileSize)) ∧
    (extOf filename ∉ video_extensions → extOf filename ∉ audio_extensions →
      extOf filename ∉ photo_extensions →
      (upload_as_video env).1 = false →
      ¬ 50 * 1024 * 1024 < env.fileSize →
      MediaAttempt.document ∈ (upload_with_progress env filename).2) := by
  refine ⟨?_, ?_, ?_, ?_⟩
  · intro hv
    refine ⟨by unfold upload_with_progress; simp [hv], ?_⟩
    unfold upload_as_video
    split <;> simp
  · intro hv ha
    refine ⟨by unfold upload_with_progress; simp [hv, ha], ?_⟩
    unfold upload_as_audio
    split <;> simp
  · intro hv ha hph
    refine ⟨by unfold upload_with_progress; simp [hv, ha, hph], ?_⟩
    unfold upload_as_photo upload_as_document
    by_cases h10 : 10 * 1024 * 1024 < env.fileSize
    · rw [if_pos h10]
      by_cases h50 : 50 * 1024 * 1024 < env.fileSize
      · rw [if_pos h50]; simp [h10, h50]
      · rw [if_neg h50]; simp [h10, h50]
    · rw [if_neg h10]; simp [h10]
  · intro hv ha hph hvfail h50
    unfold upload_with_progress
    simp only [hv, ha, hph, if_false]
    rw [hvfail]
    simp only [Bool.false_eq_true, if_false]
    unfold upload_as_document
    rw [if_neg h50]
    simp

/-- Witness for `fallback_only_for_unknown_and_big_photos`: concrete
instantiation at the video file `movie.mp4` under an SDK that rejects the
video send, discharging the membership hypothesis. -/
theorem fallback_only_for_unknown_and_big_photos_witness :
    upload_with_progress
        { fileSize := 2048, videoSendOk := false, audioSendOk := true,
          photoSendOk := true, documentSendOk := true } "movie.mp4" =
      upload_as_video
        { fileSize := 2048, videoSendOk := false, audioSendOk := true,
          photoSendOk := true, documentSendOk := true } ∧
    MediaAttempt.document ∉
      (upload_as_video
        { fileSize := 2048, videoSendOk := false, audioSendOk := true,
          photoSendOk := true, documentSendOk := true }).2 :=
  (fallback_only_for_unknown_and_big_photos
    { fileSize := 2048, videoSendOk := false, audioSendOk := true,
      photoSendOk := true, documentSendOk := true } "movie.mp4").1
    (by decide)

end Claims4

section Claims5

open TeraboxDownloaderBot

/-- C5 counterexample: a resolver response whose info object carries an
empty string under its `Title` key is accepted by `_try_api_request` as a
success whose filename is the empty string — so a successful resolution does
not guarantee a non-empty filename. -/
theorem empty_title_yields_empty_filename_cex :
    (tryApiRequest
      [("Status", Json.str "Success"),
       ("Info", Json.arr [Json.obj
         [("Title", Json.str ""),
          ("Download Link", Json.str "https://x")]])]).success = true ∧
    (tryApiRequest
      [("Status", Json.str "Success"),
       ("Info", Json.arr [Json.obj
         [("Title", Json.str ""),
          ("Download Link", Json.str "https://x")]])]).filename = "" := by
  decide

/-- Helper: through the extraction loop of `_try_api_request`, the title
component is either still the initial `"download"` or the exact string value
of some title/name-matching field of the info object. -/
theorem extract_title_aux (info : List (String × Json)) :
    ∀ (l : List (String × Json)) (acc : Option String × String × String),
      (∀ kv, kv ∈ l → kv ∈ info) →
      (acc.2.1 = "download" ∨
        ∃ k, (k, Json.str acc.2.1) ∈ info ∧
          (Py.strContains (Py.lower k) "title" ||
           Py.strContains (Py.lower k) "name") = true) →
      ((l.foldl
          (fun acc kv =>
            match kv.2 with
            | Json.str value =>
              let kl := Py.lower kv.1
              (if Py.strContains kl "download" &&
                  (Py.strContains value "http" || Py.strContains value "https")
               then some value else acc.1,
               if Py.strContains kl "title" || Py.strContains kl "name"
               then value else acc.2.1,
               if Py.strContains kl "size" then value else acc.2.2)
            | _ => acc)
          acc).2.1 = "download" ∨
        ∃ k, (k, Json.str (l.foldl
          (fun acc kv =>
            match kv.2 with
            | Json.str value =>
              let kl := Py.lower kv.1
              (if Py.strContains kl "download" &&
                  (Py.strContains value "http" || Py.strContains value "https")
               then some value else acc.1,
               if Py.strContains kl "title" || Py.strContains kl "name"
               then value else acc.2.1,
               if Py.strContains kl "size" then value else acc.2.2)
            | _ => acc)
          acc).2.1) ∈ info ∧
          (Py.strContains (Py.lower k) "title" ||
           Py.strContains (Py.lower k) "name") = true) := by
  intro l
  induction l with
  | nil => intro acc _ hP; exact hP
  | cons kv t ih =>
    intro acc hsub hP
    rw [List.foldl_cons]
    refine ih _ (fun kv' h => hsub kv' (List.mem_cons_of_mem kv h)) ?_
    obtain ⟨k, v⟩ := kv
    cases v with
    | str s =>
      dsimp only
      by_cases hm : (Py.strContains (Py.lower k) "title" ||
          Py.strContains (Py.lower k) "name") = true
      · rw [if_pos hm]
        exact Or.inr ⟨k, hsub (k, Json.str s) (List.mem_cons_self _ _), hm⟩
      · rw [if_neg hm]
        exact hP
    | arr l' => exact hP
    | obj l' => exact hP
    | num n => exact hP
    | nullv => exact hP

/-- Helper: the title returned by the extraction loop of `_try_api_request`
is the default `"download"` or an exact title/name field value of the info
object. -/
theorem extract_title_from_info (info : List (String × Json)) :
    (extractInfoFields info).2.1 = "download" ∨
    ∃ k, (k, Json.str (extractInfoFields info).2.1) ∈ info ∧
      (Py.strContains (Py.lower k) "title" ||
       Py.strContains (Py.lower k) "name") = true := by
  unfold extractInfoFields
  exact extract_title_aux info info (none, "download", "Unknown")
    (fun kv h => h) (Or.inl rfl)

/-- C5 amended: every response `_try_api_request` accepts as a success has a
non-empty download URL (the `if download_url:` gate refuses empty strings,
and any found URL contains `"http"`); the filename, however, is only
guaranteed to be the default `"download"` or the exact string the API
supplied under a title/name key of its info object — it is non-empty
whenever those API values are non-empty, and empty exactly when the API's
last title/name field is the empty string. -/
theorem resolver_success_url_nonempty_filename_from_api
    (result : List (String × Json))
    (hs : (tryApiRequest result).success = true) :
    (tryApiRequest result).download_url ≠ "" ∧
    ((tryApiRequest result).filename = "download" ∨
     ∃ info k, infoObject result = some info ∧
       (k, Json.str ((tryApiRequest result).filename)) ∈ info ∧
       (Py.strContains (Py.lower k) "title" ||
        Py.strContains (Py.lower k) "name") = true) := by
  unfold tryApiRequest at hs ⊢
  cases hio : infoObject result with
  | none => rw [hio] at hs; simp [apiFail] at hs
  | some info =>
    rw [hio] at hs
    dsimp only at hs ⊢
    rcases hef : extractInfoFields info with ⟨u0, title, size⟩
    cases u0 with
    | none => rw [hef] at hs; simp [apiFail] at hs
    | some u =>
      rw [hef] at hs
      by_cases hu : u = ""
      · rw [hu] at hs
        simp [apiFail] at hs
      · simp only [ne_eq, hu, not_false_eq_true, if_true] at hs ⊢
        refine ⟨trivial, ?_⟩
        have htitle := extract_title_from_info info
        rw [hef] at htitle
        dsimp only at htitle ⊢
        rcases htitle with h | ⟨k, hk, hm⟩
        · exact Or.inl h
        · exact Or.inr ⟨info, k, rfl, hk, hm⟩

/-- Witness for `resolver_success_url_nonempty_filename_from_api` at the C6
scenario response, whose success hypothesis is discharged by evaluation. -/
theorem resolver_success_fields_witness :
    (tryApiRequest
      [("✅ Status", Json.str "Success"),
       ("📜 Extracted Info", Json.arr [Json.obj
         [("📂 Title", Json.str "movie.mp4"),
          ("📏 Size", Json.str "30.56 MB"),
          ("🔽 Direct Download Link", Json.str "https://x/y.mp4")]])]
      ).download_url ≠ "" :=
  (resolver_success_url_nonempty_filename_from_api
    [("✅ Status", Json.str "Success"),
     ("📜 Extracted Info", Json.arr [Json.obj
       [("📂 Title", Json.str "movie.mp4"),
        ("📏 Size", Json.str "30.56 MB"),
        ("🔽 Direct Download Link", Json.str "https://x/y.mp4")]])]
    (by decide)).1

end Claims5

section Claims6

open Filenames

/-- Helper: replacing an already-replaced character changes nothing
(underscore is not in the unsafe class). -/
theorem replaceChar_idem (c : Char) :
    replaceChar (replaceChar c) = replaceChar c := by
  unfold replaceChar
  by_cases h : badChar c = true
  · rw [if_pos h, if_neg (by decide : ¬ badChar '_' = true)]
  · rw [if_neg h, if_neg h]

/-- Helper: every character of a replaced string is a fixed point of the
replacement. -/
theorem mem_replaceBad_fixed {c : Char} {l : List Char}
    (h : c ∈ replaceBad l) : replaceChar c = c := by
  unfold replaceBad at h
  obtain ⟨a, _, rfl⟩ := List.mem_map.mp h
  exact replaceChar_idem a

/-- Helper: the replacement is the identity on strings of fixed points. -/
theorem replaceBad_eq_self {l : List Char}
    (h : ∀ c ∈ l, replaceChar c = c) : replaceBad l = l := by
  unfold replaceBad
  induction l with
  | nil => rfl
  | cons a t ih =>
    rw [List.map_cons, h a (List.mem_cons_self a t),
      ih (fun c hc => h c (List.mem_cons_of_mem a hc))]

/-- Helper: the replacement preserves length. -/
theorem length_replaceBad (l : List Char) :
    (replaceBad l).length = l.length :=
  List.length_map l replaceChar

/-- Helper: the replacement neither creates nor destroys dots. -/
theorem replaceChar_eq_dot_iff (c : Char) :
    replaceChar c = '.' ↔ c = '.' := by
  unfold replaceChar
  by_cases h : badChar c = true
  · rw [if_pos h]
    constructor
    · intro habs
      exact absurd habs (by decide)
    · intro hc
      subst hc
      exact absurd h (by decide)
  · rw [if_neg h]

/-- Helper: dot membership is invariant under the replacement. -/
theorem dot_mem_replaceBad (l : List Char) :
    '.' ∈ replaceBad l ↔ '.' ∈ l := by
  unfold replaceBad
  rw [List.mem_map]
  constructor
  · rintro ⟨a, ha, hfa⟩
    exact (replaceChar_eq_dot_iff a).mp hfa ▸ ha
  · intro h
    exact ⟨'.', h, by decide⟩

/-- Helper: taking the extension commutes with the replacement. -/
theorem extPart_replaceBad (l : List Char) :
    extPart (replaceBad l) = replaceBad (extPart l) := by
  unfold extPart replaceBad
  have hpf : ((fun c : Char => decide (c ≠ '.')) ∘ replaceChar) =
      (fun c : Char => decide (c ≠ '.')) := by
    funext c
    exact decide_eq_decide.mpr (not_congr (replaceChar_eq_dot_iff c))
  rw [(List.map_reverse replaceChar l).symm, List.takeWhile_map, hpf,
    (List.map_reverse replaceChar (l.reverse.takeWhile
      (fun c : Char => decide (c ≠ '.')))).symm]

/-- Helper: extension characters come from the string. -/
theorem mem_extPart {c : Char} {l : List Char} (h : c ∈ extPart l) :
    c ∈ l := by
  unfold extPart at h
  rw [List.mem_reverse] at h
  exact List.mem_reverse.mp ((List.takeWhile_sublist _).subset h)

/-- Helper: name characters come from the string. -/
theorem mem_namePart {c : Char} {l : List Char} (h : c ∈ namePart l) :
    c ∈ l := by
  unfold namePart at h
  rw [List.mem_reverse] at h
  exact List.mem_reverse.mp
    ((List.dropWhile_sublist _).subset ((List.tail_sublist _).subset h))

/-- Helper: slice characters come from the string. -/
theorem mem_sliceTo {c : Char} {l : List Char} {k : Int}
    (h : c ∈ Py.sliceTo l k) : c ∈ l := by
  unfold Py.sliceTo at h
  by_cases hk : (0 : Int) ≤ k
  · rw [if_pos hk] at h
    exact List.take_subset _ _ h
  · rw [if_neg hk] at h
    exact List.take_subset _ _ h

/-- Helper: every character of a sanitized string is a fixed point of the
replacement. -/
theorem mem_sanitizeCore_fixed {c : Char} {l : List Char}
    (h : c ∈ sanitizeCore l) : replaceChar c = c := by
  unfold sanitizeCore at h
  split_ifs at h with h1 h2 h3
  · exact mem_replaceBad_fixed (mem_namePart (List.take_subset _ _ h))
  · rcases List.mem_append.mp h with hx | hx
    · exact mem_replaceBad_fixed (mem_namePart (mem_sliceTo hx))
    · rcases List.mem_cons.mp hx with hdot | hext
      · subst hdot
        decide
      · exact mem_replaceBad_fixed (mem_extPart hext)
  · exact mem_replaceBad_fixed (List.take_subset _ _ h)
  · exact mem_replaceBad_fixed h

/-- Helper: when the extension is at most 199 characters, the sanitized
string is at most 200 characters long. -/
theorem length_sanitizeCore_le (l : List Char)
    (h : '.' ∈ l → (extPart l).length ≤ 199) :
    (sanitizeCore l).length ≤ 200 := by
  unfold sanitizeCore
  split_ifs with h1 h2 h3
  · rw [List.length_take]
    omega
  · have hdot : '.' ∈ l := (dot_mem_replaceBad l).mp h2
    have hext : (extPart (replaceBad l)).length = (extPart l).length := by
      rw [extPart_replaceBad]
      exact length_replaceBad _
    have hle : (extPart l).length ≤ 199 := h hdot
    rw [show Py.sliceTo (namePart (replaceBad l))
        ((200 : Int) - (extPart (replaceBad l)).length - 1) =
        (namePart (replaceBad l)).take
          (((200 : Int) - (extPart (replaceBad l)).length - 1)).toNat from by
      unfold Py.sliceTo
      rw [if_pos (by omega)]]
    rw [List.length_append, List.length_take, List.length_cons]
    omega
  · rw [List.length_take]
    omega
  · omega

/-- Helper: sanitizing a replacement-fixed string of at most 200 characters
changes nothing. -/
theorem sanitizeCore_fixed {l : List Char} (hfix : replaceBad l = l)
    (hlen : l.length ≤ 200) : sanitizeCore l = l := by
  unfold sanitizeCore
  rw [hfix, if_neg (by omega)]

set_option maxRecDepth 10000 in
/-- C9 counterexample: sanitization is not idempotent.  The input of ten
`a`s, a dot, and a 200-character extension of `b`s is 211 characters long;
one sanitization pass computes `name[:200-len(ext)-1]` with the negative
Python slice bound `-1`, dropping one `a` and returning a 210-character
string, and a second pass drops another `a`, so
`sanitize(sanitize(x)) ≠ sanitize(x)`. -/
theorem sanitize_not_idempotent_cex :
    Filenames.normalize_filename (Filenames.normalize_filename
      ⟨List.replicate 10 'a' ++ '.' :: List.replicate 200 'b'⟩) ≠
    Filenames.normalize_filename
      ⟨List.replicate 10 'a' ++ '.' :: List.replicate 200 'b'⟩ := by
  decide

/-- C9 amended: sanitization is idempotent for every input whose extension —
the text after the last dot — is at most 199 characters long (in particular
for every input without a dot, however long).  The counterexample's
200-character extension shows the bound is tight: beyond it the negative
slice bound leaves the result over 200 characters and a second pass shortens
it again. -/
theorem sanitize_idempotent_short_ext (s : String)
    (h : '.' ∈ s.data → (Filenames.extPart s.data).length ≤ 199) :
    Filenames.normalize_filename (Filenames.normalize_filename s) =
      Filenames.normalize_filename s := by
  unfold Filenames.normalize_filename
  show (⟨sanitizeCore (sanitizeCore s.data)⟩ : String) = ⟨sanitizeCore s.data⟩
  congr 1
  apply sanitizeCore_fixed
  · exact replaceBad_eq_self (fun c hc => mem_sanitizeCore_fixed hc)
  · exact length_sanitizeCore_le s.data h

/-- Witness for `sanitize_idempotent_short_ext` at `movie.mp4`, whose
three-character extension satisfies the bound. -/
theorem sanitize_idempotent_short_ext_witness :
    Filenames.normalize_filename (Filenames.normalize_filename "movie.mp4") =
      Filenames.normalize_filename "movie.mp4" :=
  sanitize_idempotent_short_ext "movie.mp4" (by decide)

end Claims6
